import Mathlib

/-!
# popel: blog loader, carousel and grid renderer (`script.js`)

A shallow embedding of the page script: the values that `response.json()` can
hand to the script, the record validation of `loadBlogs`, the carousel
navigation functions, the two renderers and the text utilities, followed by the
properties of the specification that are settled on it.

Conventions of the embedding.

* A JavaScript string is the list of its UTF-16 code units, so `length`,
  `substring` and `trim` count what the script counts.
* The module-level variables and the parts of the page the script writes to are
  the fields of `State`; every function of the script that reads or writes them
  is a function on `State`.
* An exception is an `Except JSError` result.  A function that can throw after
  it has already written to the state returns the state together with the
  exception.
* What the script leaves to the JavaScript engine on values that are not
  strings (the coercions `ToString`, `ToNumber`, the `Date` constructor) and the
  date parser and formatter are the fields of `Host`.
-/

namespace Popel

/-! ## Strings -/

/-- A JavaScript string: its UTF-16 code units. -/
abbrev JSString := List Nat

/-- UTF-16 encoding of one Unicode scalar value. -/
def utf16Char (c : Char) : JSString :=
  if c.toNat < 65536 then [c.toNat]
  else [55296 + (c.toNat - 65536) / 1024, 56320 + (c.toNat - 65536) % 1024]

/-- The JavaScript string written by a literal of the script. -/
def utf16 (s : String) : JSString :=
  s.toList.foldr (fun c acc => utf16Char c ++ acc) []

/-- Decimal rendering of a non-negative integer, as `String(n)` gives it. -/
def decimal (n : Nat) : JSString :=
  (Nat.toDigits 10 n).map (fun c => c.toNat)

/-- ECMAScript `WhiteSpace` and `LineTerminator` code units, the ones
`String.prototype.trim` removes. -/
def isWhiteSpace (c : Nat) : Bool :=
  c == 9 || c == 10 || c == 11 || c == 12 || c == 13 || c == 32 || c == 160 ||
  c == 5760 || (8192 ≤ c && c ≤ 8202) || c == 8232 || c == 8233 || c == 8239 ||
  c == 8287 || c == 12288 || c == 65279

/-- The method `String.prototype.trim`: leading and trailing white space removed. -/
def trim (s : JSString) : JSString :=
  (s.dropWhile isWhiteSpace).rdropWhile isWhiteSpace

/-- The call `substring(0, n)` for a non-negative integer `n`. -/
def substring0 (s : JSString) (n : Nat) : JSString :=
  s.take n

/-- The method `String.prototype.includes`: `needle` occurs somewhere in `s`. -/
def includes (s needle : JSString) : Bool :=
  match s with
  | [] => needle.isEmpty
  | c :: rest => needle.isPrefixOf (c :: rest) || includes rest needle

/-! ## Values and errors -/

/-- Exceptions the script throws or receives. -/
inductive JSError where
  /-- Thrown by the script: `new Error(message)`. -/
  | error (message : JSString)
  /-- A `TypeError` raised by the engine (property read on `null`, call of a
  non-function, rejected `fetch`). -/
  | typeError
  /-- A `SyntaxError` raised by `response.json()`. -/
  | syntaxError
  deriving DecidableEq, Repr

/-- The values the script handles: what `JSON.parse` produces, and
`undefined`.  A number is the bit pattern of its IEEE-754 double; an object is
the list of its own properties, the first entry for a key being the one a
property read finds. -/
inductive JSValue where
  | undefined
  | null
  | bool (b : Bool)
  | num (bits : Nat)
  | str (s : JSString)
  | arr (items : List JSValue)
  | obj (fields : List (JSString × JSValue))

/-- The double with bit pattern `bits` is `+0` or `-0`. -/
def isZeroBits (bits : Nat) : Bool :=
  bits % 2 ^ 63 == 0

/-- The double with bit pattern `bits` is a `NaN`. -/
def isNaNBits (bits : Nat) : Bool :=
  (bits / 2 ^ 52) % 2048 == 2047 && bits % 2 ^ 52 != 0

/-- ECMAScript `ToBoolean`. -/
def toBoolean : JSValue → Bool
  | .undefined => false
  | .null => false
  | .bool b => b
  | .num bits => !(isZeroBits bits || isNaNBits bits)
  | .str s => !s.isEmpty
  | .arr _ => true
  | .obj _ => true

/-- The value is `null` or `undefined`. -/
def isNullish : JSValue → Bool
  | .undefined => true
  | .null => true
  | _ => false

/-- Property read `v.key` for a key that no built-in prototype defines
(`title`, `content`, `author`, `date`, `image`): a `TypeError` on `null` and
`undefined`, the own property of an object, `undefined` everywhere else. -/
def getField (v : JSValue) (key : JSString) : Except JSError JSValue :=
  match v with
  | .undefined => .error .typeError
  | .null => .error .typeError
  | .obj fields => .ok ((fields.lookup key).getD .undefined)
  | _ => .ok .undefined

/-! ## Record validation (`loadBlogs`, lines 83-89) -/

/-- The callback of the filter:
`blog => blog.title && blog.content && blog.author && blog.date`.
It returns the first falsy operand, or the last operand. -/
def validBlogCallback (blog : JSValue) : Except JSError JSValue :=
  (getField blog (utf16 "title")).bind fun t =>
    if toBoolean t then
      (getField blog (utf16 "content")).bind fun c =>
        if toBoolean c then
          (getField blog (utf16 "author")).bind fun a =>
            if toBoolean a then getField blog (utf16 "date") else .ok a
        else .ok c
    else .ok t

/-- The filter `data.filter(blog => ...)`: elements are visited in order, an
element is kept when the callback returns a truthy value, and an exception of
the callback ends the filter. -/
def validBlogs : List JSValue → Except JSError (List JSValue)
  | [] => .ok []
  | blog :: rest =>
    (validBlogCallback blog).bind fun keep =>
      (validBlogs rest).bind fun kept =>
        .ok (if toBoolean keep then blog :: kept else kept)

/-! ### The specification of record validation -/

/-- The four required fields of a blog record. -/
def requiredFields : List JSString :=
  [utf16 "title", utf16 "content", utf16 "author", utf16 "date"]

/-- The record has the field `key`, and its value is not falsy. -/
def fieldPresentAndTruthy (record : JSValue) (key : JSString) : Bool :=
  match record with
  | .obj fields =>
    match fields.lookup key with
    | some v => toBoolean v
    | none => false
  | _ => false

/-- All four required fields are present and non-falsy. -/
def hasAllRequiredFields (record : JSValue) : Bool :=
  requiredFields.all (fieldPresentAndTruthy record)

/-! ## The engine and the page -/

/-- What the script leaves to the JavaScript engine and the browser. -/
structure Host where
  /-- ECMAScript `ToString` on a number, an array or an object. -/
  toStringValue : JSValue → Except JSError JSString
  /-- The comparison `v <= n` for a value `v` read from a `length` property. -/
  lessEq : JSValue → Nat → Except JSError Bool
  /-- The time value of `new Date(s)` for a string `s`; `none` is `NaN`, an
  invalid date. -/
  dateParse : JSString → Option Int
  /-- The time value of `new Date(v)` for a value that is not a string. -/
  dateOfValue : JSValue → Except JSError (Option Int)
  /-- The result of `toLocaleDateString("en-US", ...)` with numeric year,
  short month and numeric day, on a valid time value. -/
  formatEnUS : Int → JSString
  /-- The `message` of an error raised by the engine. -/
  engineMessage : JSError → JSString

/-- The `message` property of a caught error. -/
def errorMessage (h : Host) : JSError → JSString
  | .error message => message
  | e => h.engineMessage e

/-- ECMAScript `ToString`. -/
def toStr (h : Host) : JSValue → Except JSError JSString
  | .undefined => .ok (utf16 "undefined")
  | .null => .ok (utf16 "null")
  | .bool true => .ok (utf16 "true")
  | .bool false => .ok (utf16 "false")
  | .str s => .ok s
  | v => h.toStringValue v

/-- The response of `fetch`, as far as the script reads it. -/
structure Response where
  ok : Bool
  status : Nat
  /-- The outcome of `response.json()`. -/
  json : Except JSError JSValue

/-- The status banner: its text and whether it is shown as an error. -/
structure ApiStatus where
  text : JSString
  isError : Bool
  deriving DecidableEq, Repr

/-- The module-level variables of the script and the parts of the page and of
`localStorage` it writes to. -/
structure State where
  blogData : List JSValue
  currentSlide : Int
  featuredBlogs : List JSValue
  touchStartX : Int
  touchEndX : Int
  /-- Content of `#apiStatus`; `none` while it has not been shown. -/
  apiStatus : Option ApiStatus
  /-- The element `#loading` is displayed. -/
  loadingShown : Bool
  /-- The element `#noBlogs` is displayed. -/
  noBlogsShown : Bool
  /-- The `innerHTML` of `#featuredCarousel`. -/
  carouselHtml : JSString
  /-- The `innerHTML` given to `#carouselDots`. -/
  dotsHtml : JSString
  /-- The `innerHTML` of `#blogsGrid`. -/
  blogsGridHtml : JSString
  /-- The percentage `p` of the carousel transform `translateX(-p%)`. -/
  carouselShift : Int
  /-- The index whose dot carries the class `active`. -/
  activeDot : Int
  /-- The entry `popel-api-url` of `localStorage`. -/
  savedApiUrl : Option JSString

/-- The state when the script has been loaded (lines 1-4, 305-306) and nothing
has been rendered. -/
def initialState : State :=
  { blogData := [], currentSlide := 0, featuredBlogs := [], touchStartX := 0, touchEndX := 0,
    apiStatus := none, loadingShown := false, noBlogsShown := false, carouselHtml := [],
    dotsHtml := [], blogsGridHtml := [], carouselShift := 0, activeDot := 0,
    savedApiUrl := none }

/-! ## Utility functions (lines 208-231) -/

/-- Serialisation of one code unit of a text node by `innerHTML`. -/
def escapeCodeUnit (c : Nat) : JSString :=
  if c = 38 then utf16 "&amp;"
  else if c = 160 then utf16 "&nbsp;"
  else if c = 60 then utf16 "&lt;"
  else if c = 62 then utf16 "&gt;"
  else [c]

/-- Serialisation of a text node by `innerHTML`. -/
def serializeText (s : JSString) : JSString :=
  s.foldr (fun c acc => escapeCodeUnit c ++ acc) []

/-- The function `escapeHtml(text)`: `div.textContent = text; return div.innerHTML`.
Assigning `null` or `undefined` to `textContent` leaves the element empty; any
other value is converted to a string. -/
def escapeHtml (h : Host) (text : JSValue) : Except JSError JSString :=
  match text with
  | .undefined => .ok []
  | .null => .ok []
  | v => (toStr h v).map serializeText

/-- The function `truncateText(text, maxLength)`.  On a string it is the source
line by line.  On another value, `text.length` is a `TypeError` for `null` and
`undefined`, the number of elements of an array, the own property of an object
and `undefined` otherwise; the branch `text.substring(...)` is a `TypeError`,
since no such value has a callable `substring`. -/
def truncateText (h : Host) (text : JSValue) (maxLength : Nat) : Except JSError JSValue :=
  match text with
  | .str s =>
    if s.length ≤ maxLength then .ok (.str s)
    else .ok (.str (trim (substring0 s maxLength) ++ utf16 "..."))
  | .undefined => .error .typeError
  | .null => .error .typeError
  | .arr items => if items.length ≤ maxLength then .ok (.arr items) else .error .typeError
  | .obj fields =>
    match fields.lookup (utf16 "length") with
    | none => .error .typeError
    | some len =>
      (h.lessEq len maxLength).bind fun le =>
        if le then .ok (.obj fields) else .error .typeError
  | .bool _ => .error .typeError
  | .num _ => .error .typeError

/-- The constructor call `new Date(dateString)`: the time value of the date,
`none` for an invalid date. -/
def newDate (h : Host) (dateString : JSValue) : Except JSError (Option Int) :=
  match dateString with
  | .str s => .ok (h.dateParse s)
  | v => h.dateOfValue v

/-- The call `date.toLocaleDateString("en-US", ...)`: the fixed string
`Invalid Date` on an invalid date, and it does not throw. -/
def toLocaleDateString (h : Host) : Option Int → JSString
  | none => utf16 "Invalid Date"
  | some t => h.formatEnUS t

/-- The function `formatDate(dateString)`: the `catch` branch returns the
argument. -/
def formatDate (h : Host) (dateString : JSValue) : JSValue :=
  match newDate h dateString with
  | .ok date => .str (toLocaleDateString h date)
  | .error _ => dateString

/-! ## Status and loading indicators (lines 34-51, 115-118) -/

/-- The function `showApiStatus(message, isError)`. -/
def showApiStatus (s : State) (message : JSString) (isError : Bool) : State :=
  { s with apiStatus := some { text := message, isError := isError } }

/-- The function `showLoading(show)`. -/
def showLoading (s : State) (visible : Bool) : State :=
  if visible then { s with loadingShown := true, noBlogsShown := false }
  else { s with loadingShown := false }

/-- The function `showNoBlogsMessage()`. -/
def showNoBlogsMessage (s : State) : State :=
  { s with noBlogsShown := true }

/-! ## Featured carousel (lines 120-182) -/

/-- The function `updateCarouselPosition()`. -/
def updateCarouselPosition (s : State) : State :=
  { s with carouselShift := s.currentSlide * 100, activeDot := s.currentSlide }

/-- One slide of the carousel: the template literal of lines 131-142. -/
def carouselSlide (h : Host) (blog : JSValue) : Except JSError JSString := do
  let title ← (getField blog (utf16 "title")).bind (escapeHtml h)
  let content ← (getField blog (utf16 "content")).bind fun c =>
    (truncateText h c 150).bind (escapeHtml h)
  let author ← (getField blog (utf16 "author")).bind (escapeHtml h)
  let date ← (getField blog (utf16 "date")).bind fun d => toStr h (formatDate h d)
  pure (utf16 "\n        <div class=\"carousel-slide\">\n            <div class=\"carousel-content\">\n                <h4>"
    ++ title
    ++ utf16 "</h4>\n                <p>"
    ++ content
    ++ utf16 "</p>\n                <div class=\"carousel-meta\">\n                    <span class=\"blog-author\">By "
    ++ author
    ++ utf16 "</span>\n                    <span class=\"blog-date\">"
    ++ date
    ++ utf16 "</span>\n                </div>\n            </div>\n        </div>\n    ")

/-- One positional indicator: the template literal of line 146. -/
def carouselDot (index : Nat) : JSString :=
  utf16 "<span class=\"dot " ++ (if index = 0 then utf16 "active" else [])
    ++ utf16 "\" onclick=\"goToSlide(" ++ decimal index ++ utf16 ")\"></span>"

/-- The function `renderFeaturedCarousel()`.  An exception of a slide template
leaves the function before anything has been written. -/
def renderFeaturedCarousel (h : Host) (s : State) : State × Option JSError :=
  if s.featuredBlogs.length = 0 then
    ({ s with carouselHtml := utf16 "<div class=\"carousel-slide\"><div class=\"carousel-content\"><p>No featured posts available</p></div></div>" },
      none)
  else
    match s.featuredBlogs.mapM (carouselSlide h) with
    | .error e => (s, some e)
    | .ok slides =>
      let s1 := { s with carouselHtml := slides.flatten }
      let s2 := { s1 with
        dotsHtml := ((List.range s1.featuredBlogs.length).map carouselDot).flatten }
      let s3 := { s2 with currentSlide := 0 }
      (updateCarouselPosition s3, none)

/-- The function `nextSlide()`; `%` is the remainder of JavaScript. -/
def nextSlide (s : State) : State :=
  if s.featuredBlogs.length = 0 then s
  else
    updateCarouselPosition
      { s with currentSlide := Int.tmod (s.currentSlide + 1) (s.featuredBlogs.length : Int) }

/-- The function `previousSlide()`. -/
def previousSlide (s : State) : State :=
  if s.featuredBlogs.length = 0 then s
  else
    updateCarouselPosition
      { s with currentSlide :=
          if s.currentSlide = 0 then (s.featuredBlogs.length : Int) - 1 else s.currentSlide - 1 }

/-- The function `goToSlide(index)`. -/
def goToSlide (s : State) (index : Int) : State :=
  if s.featuredBlogs.length = 0 then s
  else updateCarouselPosition { s with currentSlide := index }

/-! ## Blogs grid (lines 184-206) -/

/-- One card of the grid: the template literal of lines 193-205. -/
def blogCard (h : Host) (blog : JSValue) : Except JSError JSString := do
  let image ← (getField blog (utf16 "image")).bind fun img =>
    if toBoolean img then do
      let src ← (getField blog (utf16 "image")).bind (escapeHtml h)
      let alt ← (getField blog (utf16 "title")).bind (escapeHtml h)
      pure (utf16 "<img src=\"" ++ src ++ utf16 "\" alt=\"" ++ alt
        ++ utf16 "\" class=\"blog-image\" onerror=\"this.style.display=\x27none\x27\">")
    else pure []
  let title ← (getField blog (utf16 "title")).bind (escapeHtml h)
  let content ← (getField blog (utf16 "content")).bind fun c =>
    (truncateText h c 120).bind (escapeHtml h)
  let author ← (getField blog (utf16 "author")).bind (escapeHtml h)
  let date ← (getField blog (utf16 "date")).bind fun d => toStr h (formatDate h d)
  pure (utf16 "\n        <div class=\"blog-card\">\n            "
    ++ image
    ++ utf16 "\n            <div class=\"blog-content\">\n                <h4 class=\"blog-title\">"
    ++ title
    ++ utf16 "</h4>\n                <p class=\"blog-excerpt\">"
    ++ content
    ++ utf16 "</p>\n                <div class=\"blog-meta\">\n                    <span class=\"blog-author\">By "
    ++ author
    ++ utf16 "</span>\n                    <span class=\"blog-date\">"
    ++ date
    ++ utf16 "</span>\n                </div>\n            </div>\n        </div>\n    ")

/-- The function `renderBlogsGrid()`. -/
def renderBlogsGrid (h : Host) (s : State) : State × Option JSError :=
  if s.blogData.length = 0 then (showNoBlogsMessage s, none)
  else
    match s.blogData.mapM (blogCard h) with
    | .error e => (s, some e)
    | .ok cards => ({ s with blogsGridHtml := cards.flatten }, none)

/-! ## Loading (lines 53-113) -/

/-- The test `Array.isArray(v)`. -/
def isArray : JSValue → Bool
  | .arr _ => true
  | _ => false

/-- The elements of an array. -/
def arrayItems : JSValue → List JSValue
  | .arr items => items
  | _ => []

/-- How a call of `loadBlogs` ended: at one of the two early returns, in the
`catch` block with the caught error, or at the end of the `try` block. -/
inductive LoadResult where
  | invalidEndpoint
  | failed (e : JSError)
  | loaded
  deriving DecidableEq, Repr

/-- The `try` block of `loadBlogs` (lines 71-105), given the outcome of
`fetch(apiUrl)`: the state when the block is left, and the exception that left
it, if any. -/
def loadBlogsTry (h : Host) (apiUrl : JSString) (fetched : Except JSError Response)
    (s : State) : State × Option JSError :=
  match fetched with
  | .error e => (s, some e)
  | .ok response =>
    if !response.ok then
      (s, some (.error (utf16 "HTTP error! status: " ++ decimal response.status)))
    else
      match response.json with
      | .error e => (s, some e)
      | .ok data =>
        if !isArray data || (arrayItems data).length = 0 then
          (s, some (.error (utf16 "No blog data found or invalid data format")))
        else
          match validBlogs (arrayItems data) with
          | .error e => (s, some e)
          | .ok valid =>
            if valid.length = 0 then
              (s, some (.error (utf16 "No valid blog posts found. Please ensure your sheet has title, content, author, and date columns.")))
            else
              let s1 := { s with blogData := valid }
              let s2 := { s1 with featuredBlogs := s1.blogData.take 4 }
              let s3 := { s2 with savedApiUrl := some apiUrl }
              let s4 := showApiStatus s3
                (utf16 "Successfully loaded " ++ decimal s3.blogData.length
                  ++ utf16 " blog posts!") false
              let s5 := showLoading s4 false
              match renderFeaturedCarousel h s5 with
              | (s6, some e) => (s6, some e)
              | (s6, none) => renderBlogsGrid h s6

/-- The function `loadBlogs()`, given the value of the input `#apiUrl` and the
outcome of the request.  The second component records how the call ended. -/
def loadBlogs (h : Host) (s : State) (input : JSString) (fetched : Except JSError Response) :
    State × LoadResult :=
  let apiUrl := trim input
  if apiUrl.isEmpty then
    (showApiStatus s (utf16 "Please enter a valid SheetDB API URL") true, .invalidEndpoint)
  else if !includes apiUrl (utf16 "sheetdb.io/api/v1/") then
    (showApiStatus s
      (utf16 "Please enter a valid SheetDB API URL (should contain sheetdb.io/api/v1/)") true,
      .invalidEndpoint)
  else
    let s1 := showLoading s true
    let s2 := showApiStatus s1 (utf16 "Loading blogs...") false
    match loadBlogsTry h apiUrl fetched s2 with
    | (s3, none) => (s3, .loaded)
    | (s3, some error) =>
      let s4 := showApiStatus s3 (utf16 "Error loading blogs: " ++ errorMessage h error) true
      let s5 := showLoading s4 false
      (showNoBlogsMessage s5, .failed error)

/-! ## Touch handling (lines 304-328) -/

/-- The function `handleSwipe()`. -/
def handleSwipe (s : State) : State :=
  let swipeThreshold : Int := 50
  let diff := s.touchStartX - s.touchEndX
  if |diff| > swipeThreshold then
    if diff > 0 then nextSlide s else previousSlide s
  else s

/-- The function `handleTouchStart(event)`, given `event.changedTouches[0].screenX`. -/
def handleTouchStart (s : State) (screenX : Int) : State :=
  { s with touchStartX := screenX }

/-- The function `handleTouchEnd(event)`, given `event.changedTouches[0].screenX`. -/
def handleTouchEnd (s : State) (screenX : Int) : State :=
  handleSwipe { s with touchEndX := screenX }

/-! ## Sample data -/

/-- A host that parses the single date string `2024-01-01` and is otherwise
as unhelpful as an engine may be. -/
def sampleHost : Host :=
  { toStringValue := fun _ => .ok (utf16 "[object Object]")
    lessEq := fun _ _ => .ok false
    dateParse := fun s => if s = utf16 "2024-01-01" then some 1704067200000 else none
    dateOfValue := fun _ => .ok none
    formatEnUS := fun _ => utf16 "Jan 1, 2024"
    engineMessage := fun _ => utf16 "engine error" }

/-- A record with the four required fields. -/
def sampleRecord : JSValue :=
  .obj [(utf16 "title", .str (utf16 "T")), (utf16 "content", .str (utf16 "C")),
    (utf16 "author", .str (utf16 "A")), (utf16 "date", .str (utf16 "2024-01-01"))]

/-- An endpoint address that passes the checks of `loadBlogs`. -/
def sampleUrl : JSString :=
  utf16 "https://sheetdb.io/api/v1/abc"

/-- A successful response with the given body. -/
def okResponse (body : JSValue) : Except JSError Response :=
  .ok { ok := true, status := 200, json := .ok body }

/-- Six records with the four required fields. -/
def sixRecords : List JSValue :=
  List.replicate 6 sampleRecord

/-- A carousel of three featured items that shows the second one. -/
def sampleCarousel : State :=
  { initialState with
    featuredBlogs := [sampleRecord, sampleRecord, sampleRecord], currentSlide := 1 }

/-- A response with status 500. -/
def serverError : Except JSError Response :=
  .ok { ok := false, status := 500, json := .error .syntaxError }

/-- A record with the four required fields whose `image` holds a double quote. -/
def quotedImageRecord : JSValue :=
  .obj [(utf16 "title", .str (utf16 "T")), (utf16 "content", .str (utf16 "C")),
    (utf16 "author", .str (utf16 "A")), (utf16 "date", .str (utf16 "2024-01-01")),
    (utf16 "image", .str (utf16 "x\" onerror=\"alert(1)"))]

/-! ## Reachable states and the carousel index invariant -/

/-- The states the page reaches from `initialState` through successful loads,
`nextSlide`, `previousSlide`, touch events and those calls `goToSlide(i)` that
`jump` admits in the state they are made in. -/
inductive Reachable (h : Host) (jump : State → Int → Prop) : State → Prop where
  | init : Reachable h jump initialState
  | load {s : State} (input : JSString) (fetched : Except JSError Response) :
      Reachable h jump s → (loadBlogs h s input fetched).2 = .loaded →
      Reachable h jump (loadBlogs h s input fetched).1
  | next {s : State} : Reachable h jump s → Reachable h jump (nextSlide s)
  | previous {s : State} : Reachable h jump s → Reachable h jump (previousSlide s)
  | goTo {s : State} (i : Int) : Reachable h jump s → jump s i →
      Reachable h jump (goToSlide s i)
  | touchStart {s : State} (x : Int) : Reachable h jump s →
      Reachable h jump (handleTouchStart s x)
  | touchEnd {s : State} (x : Int) : Reachable h jump s →
      Reachable h jump (handleTouchEnd s x)

/-- Every integer is admitted as an argument of `goToSlide`. -/
def anyIndex : State → Int → Prop :=
  fun _ _ => True

/-- Only the indices of the rendered indicators are admitted as arguments of
`goToSlide`. -/
def indicatorIndex : State → Int → Prop :=
  fun s i => 0 ≤ i ∧ i < (s.featuredBlogs.length : Int)

/-- The carousel index invariant `0 <= currentSlide < max(1, featuredBlogs.length)`. -/
def CarouselIndexInv (s : State) : Prop :=
  0 ≤ s.currentSlide ∧ s.currentSlide < max 1 (s.featuredBlogs.length : Int)

/-! ## Theorems -/

theorem validBlogCallback_spec (blog : JSValue) (h : isNullish blog = false) :
    (validBlogCallback blog).map toBoolean = .ok (hasAllRequiredFields blog) := by
  cases blog with
  | undefined => simp [isNullish] at h
  | null => simp [isNullish] at h
  | obj fields =>
    simp only [validBlogCallback, getField, Except.bind, hasAllRequiredFields, requiredFields,
      List.all_cons, List.all_nil, fieldPresentAndTruthy, Bool.and_true]
    generalize List.lookup (utf16 "title") fields = t
    generalize List.lookup (utf16 "content") fields = c
    generalize List.lookup (utf16 "author") fields = a
    generalize List.lookup (utf16 "date") fields = d
    have hu : toBoolean .undefined = false := rfl
    cases t with
    | none => simp [Except.map, hu]
    | some t =>
      cases ht : toBoolean t with
      | false => simp [Except.map, ht]
      | true =>
        cases c with
        | none => simp [Except.map, ht, hu]
        | some c =>
          cases hc : toBoolean c with
          | false => simp [Except.map, ht, hc]
          | true =>
            cases a with
            | none => simp [Except.map, ht, hc, hu]
            | some a =>
              cases ha : toBoolean a with
              | false => simp [Except.map, ht, hc, ha]
              | true =>
                cases d with
                | none => simp [Except.map, ht, hc, ha, hu]
                | some d => simp [Except.map, ht, hc, ha]
  | bool b => rfl
  | num n => rfl
  | str s => rfl
  | arr l => rfl

theorem validBlogs_filter (data : List JSValue)
    (hrec : data.all (fun v => !isNullish v) = true) :
    validBlogs data = .ok (data.filter hasAllRequiredFields) := by
  induction data with
  | nil => rfl
  | cons blog rest ih =>
    simp only [List.all_cons, Bool.and_eq_true, Bool.not_eq_true'] at hrec
    have hb := validBlogCallback_spec blog hrec.1
    cases hv : validBlogCallback blog with
    | error e => simp [hv, Except.map] at hb
    | ok v =>
      simp only [hv, Except.map, Except.ok.injEq] at hb
      simp only [validBlogs, hv, ih hrec.2, Except.bind, hb, List.filter_cons]

/-- C1: on an array of records (no element is `null` or `undefined`), the
record validation step of `loadBlogs` returns exactly the elements whose four
required fields are all present and non-falsy, in their original order: the
result is the input filtered by that condition, so it is a sublist of the
input, and an element of the input is kept if and only if it meets the
condition. -/
theorem validBlogs_eq_filter (data : List JSValue)
    (hrec : data.all (fun v => !isNullish v) = true) :
    ∃ kept, validBlogs data = .ok kept
      ∧ kept = data.filter hasAllRequiredFields
      ∧ kept.Sublist data
      ∧ ∀ r, r ∈ kept ↔ r ∈ data ∧ hasAllRequiredFields r = true :=
  ⟨data.filter hasAllRequiredFields, validBlogs_filter data hrec, rfl,
    List.filter_sublist data, fun _ => List.mem_filter⟩

/-! ### Truncation -/

theorem dropWhile_take (p : Nat → Bool) (t : List Nat) (m : Nat) :
    (t.take m).dropWhile p = (t.dropWhile p).take (m - (t.takeWhile p).length) := by
  induction t generalizing m with
  | nil => simp
  | cons a t ih =>
    cases m with
    | zero => simp
    | succ m =>
      cases hp : p a with
      | true => simp [List.take_succ_cons, List.dropWhile_cons, List.takeWhile_cons, hp, ih]
      | false => simp [List.take_succ_cons, List.dropWhile_cons, List.takeWhile_cons, hp]

theorem dropWhile_suffix_append (p : Nat → Bool) (a b : List Nat) :
    b.dropWhile p <:+ (a ++ b).dropWhile p := by
  induction a with
  | nil => exact List.suffix_refl _
  | cons x a ih =>
    cases hp : p x with
    | true => simpa [List.dropWhile_cons, hp] using ih
    | false =>
      simp only [List.cons_append, List.dropWhile_cons, hp]
      exact (List.dropWhile_suffix p).trans (List.suffix_cons_iff.mpr (Or.inr (List.suffix_append a b)))

theorem rdropWhile_take_isPrefix (p : Nat → Bool) (t : List Nat) (k : Nat) :
    List.IsPrefix ((t.take k).rdropWhile p) (t.rdropWhile p) := by
  have hsplit : t.reverse = (t.drop k).reverse ++ (t.take k).reverse := by
    rw [← List.reverse_append, List.take_append_drop]
  have hsuf := dropWhile_suffix_append p (t.drop k).reverse (t.take k).reverse
  rw [← hsplit] at hsuf
  obtain ⟨u, hu⟩ := hsuf
  refine ⟨u.reverse, ?_⟩
  unfold List.rdropWhile
  rw [← hu, List.reverse_append]

theorem trim_substring0_isPrefix (text : JSString) (m : Nat) :
    List.IsPrefix (trim (substring0 text m)) (trim text) := by
  unfold trim substring0
  rw [dropWhile_take]
  exact rdropWhile_take_isPrefix _ _ _

theorem trim_length_le (s : JSString) : (trim s).length ≤ s.length := by
  unfold trim
  have h1 : List.IsPrefix ((s.dropWhile isWhiteSpace).rdropWhile isWhiteSpace)
      (s.dropWhile isWhiteSpace) := List.rdropWhile_prefix _ _
  have h2 := (List.dropWhile_suffix isWhiteSpace (l := s)).length_le
  exact le_trans h1.length_le h2

/-- C6: for a string longer than the maximum, `truncateText` returns a string
that ends with the three-character ellipsis marker, has at most `m + 3` code
units, and whose part before the marker is a prefix of the trimmed original;
a string of at most `m` code units is returned unchanged. -/
theorem truncateText_spec (h : Host) (text : JSString) (m : Nat) :
    (m < text.length →
      ∃ head, truncateText h (.str text) m = .ok (.str (head ++ utf16 "..."))
        ∧ List.IsPrefix head (trim text)
        ∧ (head ++ utf16 "...").length ≤ m + 3)
    ∧ (text.length ≤ m → truncateText h (.str text) m = .ok (.str text)) := by
  constructor
  · intro hlt
    refine ⟨trim (substring0 text m), ?_, trim_substring0_isPrefix text m, ?_⟩
    · simp [truncateText, Nat.not_le.mpr hlt]
    · have h1 := trim_length_le (substring0 text m)
      have h2 : (substring0 text m).length ≤ m := by
        unfold substring0; exact List.length_take_le m text
      have h3 : (utf16 "...").length = 3 := by decide
      rw [List.length_append, h3]
      omega
  · intro hle
    simp [truncateText, hle]

/-- Witness for C6: a 14-unit text with inner and outer blanks cut at 5, and a
short text left alone. -/
theorem truncateText_spec_witness :
    (∃ head, truncateText sampleHost (.str (utf16 "  ab cd  efghi")) 5
        = .ok (.str (head ++ utf16 "..."))
      ∧ List.IsPrefix head (trim (utf16 "  ab cd  efghi"))
      ∧ (head ++ utf16 "...").length ≤ 5 + 3)
    ∧ truncateText sampleHost (.str (utf16 "abc")) 5 = .ok (.str (utf16 "abc")) :=
  ⟨(truncateText_spec sampleHost (utf16 "  ab cd  efghi") 5).1 (by decide),
   (truncateText_spec sampleHost (utf16 "abc") 5).2 (by decide)⟩

/-! ### Carousel navigation -/

theorem nextSlide_featuredBlogs (s : State) : (nextSlide s).featuredBlogs = s.featuredBlogs := by
  unfold nextSlide updateCarouselPosition
  split <;> rfl

theorem previousSlide_featuredBlogs (s : State) :
    (previousSlide s).featuredBlogs = s.featuredBlogs := by
  unfold previousSlide updateCarouselPosition
  split <;> rfl

theorem nextSlide_currentSlide (s : State) (hn : s.featuredBlogs.length ≠ 0) :
    (nextSlide s).currentSlide
      = Int.tmod (s.currentSlide + 1) (s.featuredBlogs.length : Int) := by
  simp [nextSlide, updateCarouselPosition, hn]

theorem previousSlide_currentSlide (s : State) (hn : s.featuredBlogs.length ≠ 0) :
    (previousSlide s).currentSlide
      = if s.currentSlide = 0 then (s.featuredBlogs.length : Int) - 1 else s.currentSlide - 1 := by
  simp [previousSlide, updateCarouselPosition, hn]

theorem nextSlide_iterate (s : State) (hn : s.featuredBlogs.length ≠ 0)
    (h0 : 0 ≤ s.currentSlide) (h1 : s.currentSlide < (s.featuredBlogs.length : Int)) (k : Nat) :
    (nextSlide^[k] s).featuredBlogs = s.featuredBlogs
      ∧ (nextSlide^[k] s).currentSlide
          = (s.currentSlide + (k : Int)) % (s.featuredBlogs.length : Int) := by
  induction k with
  | zero => exact ⟨rfl, by simp [Int.emod_eq_of_lt h0 h1]⟩
  | succ k ih =>
    rw [Function.iterate_succ_apply']
    have hlen : (0 : Int) < (s.featuredBlogs.length : Int) := by omega
    obtain ⟨hf, hc⟩ := ih
    refine ⟨by rw [nextSlide_featuredBlogs, hf], ?_⟩
    rw [nextSlide_currentSlide _ (by rw [hf]; exact hn), hf, hc]
    have hnn : 0 ≤ (s.currentSlide + (k : Int)) % (s.featuredBlogs.length : Int) :=
      Int.emod_nonneg _ (ne_of_gt hlen)
    rw [Int.tmod_eq_emod (by omega) (le_of_lt hlen), Int.emod_add_emod]
    push_cast
    rw [add_assoc]

/-- C4: on a carousel with `n >= 1` featured items and a valid index, applying
`nextSlide` exactly `n` times brings `currentSlide` back to its value. -/
theorem nextSlide_iterate_length (s : State) (hn : 1 ≤ s.featuredBlogs.length)
    (h0 : 0 ≤ s.currentSlide) (h1 : s.currentSlide < (s.featuredBlogs.length : Int)) :
    (nextSlide^[s.featuredBlogs.length] s).currentSlide = s.currentSlide := by
  have hne : s.featuredBlogs.length ≠ 0 := by omega
  rw [(nextSlide_iterate s hne h0 h1 s.featuredBlogs.length).2, Int.add_emod_self,
    Int.emod_eq_of_lt h0 h1]

/-- C5: on a carousel with at least one featured item and a valid index,
`nextSlide` followed by `previousSlide` leaves `currentSlide` at its value, and
so does `previousSlide` followed by `nextSlide`. -/
theorem next_previous_roundtrip (s : State) (hn : 1 ≤ s.featuredBlogs.length)
    (h0 : 0 ≤ s.currentSlide) (h1 : s.currentSlide < (s.featuredBlogs.length : Int)) :
    (previousSlide (nextSlide s)).currentSlide = s.currentSlide
      ∧ (nextSlide (previousSlide s)).currentSlide = s.currentSlide := by
  have hne : s.featuredBlogs.length ≠ 0 := by omega
  have hlen : (0 : Int) < (s.featuredBlogs.length : Int) := by exact_mod_cast hn
  constructor
  · rw [previousSlide_currentSlide _ (by rw [nextSlide_featuredBlogs]; exact hne),
      nextSlide_featuredBlogs, nextSlide_currentSlide _ hne,
      Int.tmod_eq_emod (by omega) (le_of_lt hlen)]
    by_cases hlast : s.currentSlide + 1 = (s.featuredBlogs.length : Int)
    · rw [hlast, Int.emod_self]; simp; omega
    · have hlt : s.currentSlide + 1 < (s.featuredBlogs.length : Int) := by omega
      rw [Int.emod_eq_of_lt (by omega) hlt]
      have : s.currentSlide + 1 ≠ 0 := by omega
      simp [this]
  · rw [nextSlide_currentSlide _ (by rw [previousSlide_featuredBlogs]; exact hne),
      previousSlide_featuredBlogs, previousSlide_currentSlide _ hne]
    by_cases hz : s.currentSlide = 0
    · rw [if_pos hz, Int.tmod_eq_emod (by omega) (le_of_lt hlen)]
      simp [hz]
    · rw [if_neg hz, Int.tmod_eq_emod (by omega) (le_of_lt hlen)]
      simp only [sub_add_cancel]
      exact Int.emod_eq_of_lt h0 h1

/-! ### Loading -/

theorem renderFeaturedCarousel_data (h : Host) (s : State) :
    (renderFeaturedCarousel h s).1.blogData = s.blogData
      ∧ (renderFeaturedCarousel h s).1.featuredBlogs = s.featuredBlogs := by
  unfold renderFeaturedCarousel
  split
  · exact ⟨rfl, rfl⟩
  · split <;> exact ⟨rfl, rfl⟩

theorem renderFeaturedCarousel_reset (h : Host) (s : State)
    (hne : s.featuredBlogs.length ≠ 0) (hr : (renderFeaturedCarousel h s).2 = none) :
    (renderFeaturedCarousel h s).1.currentSlide = 0 := by
  unfold renderFeaturedCarousel at hr ⊢
  rw [if_neg hne] at hr ⊢
  split at hr
  · simp at hr
  · rfl

theorem renderBlogsGrid_data (h : Host) (s : State) :
    (renderBlogsGrid h s).1.blogData = s.blogData
      ∧ (renderBlogsGrid h s).1.featuredBlogs = s.featuredBlogs
      ∧ (renderBlogsGrid h s).1.currentSlide = s.currentSlide := by
  unfold renderBlogsGrid
  split
  · exact ⟨rfl, rfl, rfl⟩
  · split <;> exact ⟨rfl, rfl, rfl⟩

theorem isArray_arrayItems (v : JSValue) (ha : isArray v = true) : v = .arr (arrayItems v) := by
  cases v <;> simp [isArray, arrayItems] at ha ⊢

/-- What a completed `try` block has done: the body was a non-empty array,
validation kept a non-empty list, and the variables hold it. -/
theorem loadBlogsTry_completed (h : Host) (apiUrl : JSString)
    (fetched : Except JSError Response) (s : State)
    (hr : (loadBlogsTry h apiUrl fetched s).2 = none) :
    ∃ response data valid,
      fetched = .ok response ∧ response.ok = true ∧ response.json = .ok (.arr data)
        ∧ data ≠ [] ∧ validBlogs data = .ok valid ∧ valid ≠ []
        ∧ (loadBlogsTry h apiUrl fetched s).1.blogData = valid
        ∧ (loadBlogsTry h apiUrl fetched s).1.featuredBlogs = valid.take 4
        ∧ (loadBlogsTry h apiUrl fetched s).1.currentSlide = 0 := by
  unfold loadBlogsTry at hr ⊢
  cases fetched with
  | error e => simp at hr
  | ok response =>
    cases hok : response.ok with
    | false => simp [hok] at hr
    | true =>
      simp only [hok, Bool.not_true, Bool.false_eq_true, if_false] at hr ⊢
      cases hj : response.json with
      | error e => simp [hj] at hr
      | ok data =>
        simp only [hj] at hr ⊢
        by_cases hbad : (!isArray data || decide ((arrayItems data).length = 0)) = true
        · simp [hbad] at hr
        · rw [if_neg hbad] at hr ⊢
          simp only [Bool.or_eq_true, Bool.not_eq_true', decide_eq_true_eq, not_or,
            Bool.not_eq_false] at hbad
          cases hv : validBlogs (arrayItems data) with
          | error e => simp [hv] at hr
          | ok valid =>
            simp only [hv] at hr ⊢
            by_cases hempty : valid.length = 0
            · simp [hempty] at hr
            · rw [if_neg hempty] at hr ⊢
              generalize hs5 : showLoading (showApiStatus _ _ false) false = s5 at hr ⊢
              have hb5 : s5.blogData = valid := by
                rw [← hs5]; simp [showLoading, showApiStatus]
              have hf5 : s5.featuredBlogs = valid.take 4 := by
                rw [← hs5]; simp [showLoading, showApiStatus]
              have hne5 : s5.featuredBlogs.length ≠ 0 := by
                rw [hf5]
                cases valid with
                | nil => simp at hempty
                | cons a t => simp
              have hd := renderFeaturedCarousel_data h s5
              cases hrf : renderFeaturedCarousel h s5 with
              | mk s6 r =>
                rw [hrf] at hr hd
                cases r with
                | some e => simp at hr
                | none =>
                  simp only at hd ⊢
                  have hreset := renderFeaturedCarousel_reset h s5 hne5 (by rw [hrf])
                  rw [hrf] at hreset
                  have hg := renderBlogsGrid_data h s6
                  refine ⟨response, arrayItems data, valid, rfl, hok, ?_, ?_, hv, ?_, ?_, ?_, ?_⟩
                  · rw [hj]; exact congrArg Except.ok (isArray_arrayItems data hbad.1)
                  · intro hnil; exact hbad.2 (by rw [hnil]; rfl)
                  · intro hnil; exact hempty (by rw [hnil]; rfl)
                  · rw [hg.1, hd.1, hb5]
                  · rw [hg.2.1, hd.2, hf5]
                  · rw [hg.2.2]; exact hreset

/-- A call that ends at the end of the `try` block: see `loadBlogsTry_completed`. -/
theorem loadBlogs_loaded (h : Host) (s : State) (input : JSString)
    (fetched : Except JSError Response)
    (hr : (loadBlogs h s input fetched).2 = .loaded) :
    ∃ response data valid,
      fetched = .ok response ∧ response.ok = true ∧ response.json = .ok (.arr data)
        ∧ data ≠ [] ∧ validBlogs data = .ok valid ∧ valid ≠ []
        ∧ (loadBlogs h s input fetched).1.blogData = valid
        ∧ (loadBlogs h s input fetched).1.featuredBlogs = valid.take 4
        ∧ (loadBlogs h s input fetched).1.currentSlide = 0 := by
  unfold loadBlogs at hr ⊢
  simp only at hr ⊢
  split at hr
  · simp at hr
  · split at hr
    · simp at hr
    · rename_i h1 h2
      rw [if_neg h1, if_neg h2]
      generalize hs2 : showApiStatus (showLoading s true) _ false = s2 at hr ⊢
      cases ht : loadBlogsTry h (trim input) fetched s2 with
      | mk s3 r =>
        rw [ht] at hr
        cases r with
        | some e => simp at hr
        | none =>
          have := loadBlogsTry_completed h (trim input) fetched s2 (by rw [ht])
          rw [ht] at this
          exact this

/-- C2: after a successful load, `featuredBlogs` is the first
`min(4, blogData.length)` elements of `blogData`, in order; in particular it
has exactly `min(4, blogData.length)` elements. -/
theorem loadBlogs_featuredBlogs (h : Host) (s : State) (input : JSString)
    (fetched : Except JSError Response)
    (hr : (loadBlogs h s input fetched).2 = .loaded) :
    (loadBlogs h s input fetched).1.featuredBlogs
        = (loadBlogs h s input fetched).1.blogData.take
            (min 4 (loadBlogs h s input fetched).1.blogData.length)
      ∧ (loadBlogs h s input fetched).1.featuredBlogs.length
          = min 4 (loadBlogs h s input fetched).1.blogData.length := by
  obtain ⟨_, _, valid, _, _, _, _, _, _, hb, hf, _⟩ := loadBlogs_loaded h s input fetched hr
  rw [hf, hb]
  refine ⟨?_, List.length_take 4 valid⟩
  rcases Nat.le_total 4 valid.length with hle | hle
  · rw [Nat.min_eq_left hle]
  · rw [Nat.min_eq_right hle, List.take_of_length_le hle, List.take_of_length_le (le_refl _)]

/-- Witness for C1: an array of a complete record, a record without `date`
and a string. -/
theorem validBlogs_eq_filter_witness :
    ∃ kept, validBlogs [sampleRecord, .obj [(utf16 "title", .str (utf16 "T"))], .str (utf16 "x")]
        = .ok kept
      ∧ kept = [sampleRecord, .obj [(utf16 "title", .str (utf16 "T"))],
          .str (utf16 "x")].filter hasAllRequiredFields
      ∧ kept.Sublist [sampleRecord, .obj [(utf16 "title", .str (utf16 "T"))], .str (utf16 "x")]
      ∧ ∀ r, r ∈ kept ↔
          r ∈ [sampleRecord, .obj [(utf16 "title", .str (utf16 "T"))], .str (utf16 "x")]
            ∧ hasAllRequiredFields r = true :=
  validBlogs_eq_filter _ (by decide)

/-- Witness for C2: six valid records give four featured items. -/
theorem loadBlogs_featuredBlogs_witness :
    (loadBlogs sampleHost initialState sampleUrl (okResponse (.arr sixRecords))).2 = .loaded
      ∧ (loadBlogs sampleHost initialState sampleUrl
            (okResponse (.arr sixRecords))).1.featuredBlogs.length = 4 :=
  ⟨by decide,
   (loadBlogs_featuredBlogs sampleHost initialState sampleUrl (okResponse (.arr sixRecords))
      (by decide)).2.trans (by decide)⟩

/-- Witness for C4: three applications of `nextSlide` on three items. -/
theorem nextSlide_iterate_length_witness :
    (nextSlide^[3] sampleCarousel).currentSlide = 1 :=
  nextSlide_iterate_length sampleCarousel (by decide) (by decide) (by decide)

/-- Witness for C5: both round trips on three items. -/
theorem next_previous_roundtrip_witness :
    (previousSlide (nextSlide sampleCarousel)).currentSlide = 1
      ∧ (nextSlide (previousSlide sampleCarousel)).currentSlide = 1 :=
  next_previous_roundtrip sampleCarousel (by decide) (by decide) (by decide)

/-! ### The carousel index invariant -/

/-- C3, counterexample: after one successful load of one record, the call
`goToSlide(5)` leaves `currentSlide = 5` with a single featured item, so the
invariant fails in a reachable state when every integer is admitted. -/
theorem carouselIndexInv_fails_anyIndex :
    ¬ ∀ (h : Host) (s : State), Reachable h anyIndex s → CarouselIndexInv s := by
  intro hall
  have hreach : Reachable sampleHost anyIndex
      (goToSlide (loadBlogs sampleHost initialState sampleUrl
        (okResponse (.arr [sampleRecord]))).1 5) :=
    Reachable.goTo 5 (Reachable.load sampleUrl _ Reachable.init (by decide)) trivial
  have hinv := hall sampleHost _ hreach
  revert hinv
  unfold CarouselIndexInv
  decide

theorem nextSlide_inv (s : State) (hinv : CarouselIndexInv s) : CarouselIndexInv (nextSlide s) := by
  by_cases hn : s.featuredBlogs.length = 0
  · simpa [nextSlide, hn] using hinv
  · have hlen : (0 : Int) < (s.featuredBlogs.length : Int) := by omega
    unfold CarouselIndexInv
    rw [nextSlide_featuredBlogs, nextSlide_currentSlide s hn,
      Int.tmod_eq_emod (by have := hinv.1; omega) (le_of_lt hlen)]
    refine ⟨Int.emod_nonneg _ (ne_of_gt hlen), ?_⟩
    exact lt_of_lt_of_le (Int.emod_lt_of_pos _ hlen) (le_max_right _ _)

theorem previousSlide_inv (s : State) (hinv : CarouselIndexInv s) :
    CarouselIndexInv (previousSlide s) := by
  by_cases hn : s.featuredBlogs.length = 0
  · simpa [previousSlide, hn] using hinv
  · have hlen : (0 : Int) < (s.featuredBlogs.length : Int) := by omega
    obtain ⟨h0, h1⟩ := hinv
    unfold CarouselIndexInv
    rw [previousSlide_featuredBlogs, previousSlide_currentSlide s hn]
    have hmax : max 1 (s.featuredBlogs.length : Int) = (s.featuredBlogs.length : Int) :=
      max_eq_right (by omega)
    rw [hmax] at h1 ⊢
    split <;> omega

theorem handleSwipe_inv (s : State) (hinv : CarouselIndexInv s) :
    CarouselIndexInv (handleSwipe s) := by
  unfold handleSwipe
  simp only
  split
  · split
    · exact nextSlide_inv s hinv
    · exact previousSlide_inv s hinv
  · exact hinv

/-- C3, amended: in every state reachable from the initial state by successful
loads, `nextSlide`, `previousSlide`, touch events and calls `goToSlide(i)` with
`0 <= i < featuredBlogs.length`, the index satisfies
`0 <= currentSlide < max(1, featuredBlogs.length)`. -/
theorem carouselIndexInv_of_reachable (h : Host) (s : State)
    (hreach : Reachable h indicatorIndex s) : CarouselIndexInv s := by
  induction hreach with
  | init => unfold CarouselIndexInv; decide
  | load input fetched _ hok _ =>
    obtain ⟨_, _, _, _, _, _, _, _, _, _, _, hc⟩ := loadBlogs_loaded h _ input fetched hok
    unfold CarouselIndexInv
    rw [hc]
    exact ⟨le_refl _, lt_of_lt_of_le Int.zero_lt_one (le_max_left _ _)⟩
  | next _ ih => exact nextSlide_inv _ ih
  | previous _ ih => exact previousSlide_inv _ ih
  | @goTo s i _ hjump ih =>
    by_cases hn : s.featuredBlogs.length = 0
    · simpa [goToSlide, hn] using ih
    · obtain ⟨hi0, hi1⟩ := hjump
      simp only [goToSlide, if_neg hn, updateCarouselPosition, CarouselIndexInv]
      exact ⟨hi0, lt_of_lt_of_le hi1 (le_max_right _ _)⟩
  | touchStart x _ ih => exact ih
  | touchEnd x _ ih => exact handleSwipe_inv _ ih

/-- Witness for C3: load one record, jump to indicator 0, go forward. -/
theorem carouselIndexInv_of_reachable_witness :
    CarouselIndexInv
      (nextSlide (goToSlide (loadBlogs sampleHost initialState sampleUrl
        (okResponse (.arr [sampleRecord]))).1 0)) :=
  carouselIndexInv_of_reachable sampleHost _
    (Reachable.next
      (Reachable.goTo 0 (Reachable.load sampleUrl _ Reachable.init (by decide))
        (by unfold indicatorIndex; decide)))

/-! ### Failed loads -/

/-- C7, failing input: on the body `[null]`, a non-empty array without a
usable element, the filter callback reads `title` of `null`; `loadBlogs` ends
in the `catch` block with that `TypeError` and not with the error
`No valid blog posts found...`. -/
theorem loadBlogs_null_element (h : Host) (s : State) :
    (loadBlogs h s sampleUrl (okResponse (.arr [.null]))).2 = .failed .typeError
      ∧ (loadBlogs h s sampleUrl (okResponse (.arr [.null]))).2
          ≠ .failed (.error (utf16 "No valid blog posts found. Please ensure your sheet has title, content, author, and date columns.")) := by
  have hres : (loadBlogs h s sampleUrl (okResponse (.arr [.null]))).2 = .failed .typeError := rfl
  refine ⟨hres, ?_⟩
  rw [hres]
  decide

theorem loadBlogsTry_failure (h : Host) (apiUrl : JSString) (s : State) (response : Response)
    (hfail : response.ok = false
      ∨ (∃ body, response.json = .ok body ∧ (isArray body = false ∨ arrayItems body = []))
      ∨ (∃ data, response.json = .ok (.arr data) ∧ validBlogs data = .ok [])) :
    (loadBlogsTry h apiUrl (.ok response) s).1 = s
      ∧ (loadBlogsTry h apiUrl (.ok response) s).2 ≠ none := by
  unfold loadBlogsTry
  simp only
  cases hok : response.ok with
  | false => simp
  | true =>
    simp only [Bool.not_true, Bool.false_eq_true, if_false]
    rcases hfail with hf | ⟨body, hj, hb⟩ | ⟨data, hj, hv⟩
    · rw [hok] at hf; exact absurd hf (by decide)
    · rw [hj]
      rcases hb with hb | hb <;> simp [hb]
    · rw [hj]
      simp only [isArray, arrayItems, Bool.not_true, Bool.false_or]
      split
      · simp
      · simp [hv]

/-- C8, counterexample: a load of one record followed by a load that fails with
an HTTP error leaves the record of the first load in `blogData` and in
`featuredBlogs`. -/
theorem loadBlogs_failure_not_cleared :
    (loadBlogs sampleHost
        (loadBlogs sampleHost initialState sampleUrl (okResponse (.arr [sampleRecord]))).1
        sampleUrl serverError).2
        = .failed (.error (utf16 "HTTP error! status: 500"))
      ∧ (loadBlogs sampleHost
          (loadBlogs sampleHost initialState sampleUrl (okResponse (.arr [sampleRecord]))).1
          sampleUrl serverError).1.blogData ≠ []
      ∧ (loadBlogs sampleHost
          (loadBlogs sampleHost initialState sampleUrl (okResponse (.arr [sampleRecord]))).1
          sampleUrl serverError).1.featuredBlogs ≠ [] := by
  refine ⟨by decide, ?_, ?_⟩
  · intro hnil
    have hlen := congrArg List.length hnil
    revert hlen
    decide
  · intro hnil
    have hlen := congrArg List.length hnil
    revert hlen
    decide

/-- C8, amended: a load attempt that fails with an HTTP error, an empty or
malformed body, or no valid records does not end as a successful load and
leaves `blogData`, `featuredBlogs` and `currentSlide` exactly as they were
before the attempt; nothing is cleared. -/
theorem loadBlogs_failure_keeps_data (h : Host) (s : State) (input : JSString)
    (response : Response)
    (hfail : response.ok = false
      ∨ (∃ body, response.json = .ok body ∧ (isArray body = false ∨ arrayItems body = []))
      ∨ (∃ data, response.json = .ok (.arr data) ∧ validBlogs data = .ok [])) :
    (loadBlogs h s input (.ok response)).2 ≠ .loaded
      ∧ (loadBlogs h s input (.ok response)).1.blogData = s.blogData
      ∧ (loadBlogs h s input (.ok response)).1.featuredBlogs = s.featuredBlogs
      ∧ (loadBlogs h s input (.ok response)).1.currentSlide = s.currentSlide := by
  unfold loadBlogs
  simp only
  split
  · exact ⟨by simp, rfl, rfl, rfl⟩
  · split
    · exact ⟨by simp, rfl, rfl, rfl⟩
    · obtain ⟨hs, hr⟩ := loadBlogsTry_failure h (trim input)
        (showApiStatus (showLoading s true) (utf16 "Loading blogs...") false) response hfail
      cases ht : loadBlogsTry h (trim input) (.ok response)
          (showApiStatus (showLoading s true) (utf16 "Loading blogs...") false) with
      | mk s3 r =>
        rw [ht] at hs hr
        simp only at hs hr
        subst hs
        cases r with
        | none => exact absurd rfl hr
        | some e => exact ⟨by simp, rfl, rfl, rfl⟩

/-- Witness for C8: the failing load of the counterexample keeps the record. -/
theorem loadBlogs_failure_keeps_data_witness :
    (loadBlogs sampleHost
        (loadBlogs sampleHost initialState sampleUrl (okResponse (.arr [sampleRecord]))).1
        sampleUrl serverError).1.blogData
      = (loadBlogs sampleHost initialState sampleUrl
          (okResponse (.arr [sampleRecord]))).1.blogData :=
  (loadBlogs_failure_keeps_data sampleHost _ sampleUrl
    { ok := false, status := 500, json := .error .syntaxError } (Or.inl rfl)).2.1

/-! ### Classification of the response body -/

theorem loadBlogs_emptyOrMalformed (h : Host) (s : State) (input : JSString)
    (response : Response) (body : JSValue)
    (hurl : (trim input).isEmpty = false)
    (hpath : includes (trim input) (utf16 "sheetdb.io/api/v1/") = true)
    (hok : response.ok = true) (hj : response.json = .ok body)
    (hb : isArray body = false ∨ arrayItems body = []) :
    (loadBlogs h s input (.ok response)).2
      = .failed (.error (utf16 "No blog data found or invalid data format")) := by
  unfold loadBlogs loadBlogsTry
  rcases hb with hb | hb <;> simp [hurl, hpath, hok, hj, hb]

theorem loadBlogs_noValidRecords (h : Host) (s : State) (input : JSString)
    (response : Response) (data : List JSValue)
    (hurl : (trim input).isEmpty = false)
    (hpath : includes (trim input) (utf16 "sheetdb.io/api/v1/") = true)
    (hok : response.ok = true) (hj : response.json = .ok (.arr data))
    (hne : data ≠ []) (hrec : data.all (fun v => !isNullish v) = true)
    (hnone : data.filter hasAllRequiredFields = []) :
    (loadBlogs h s input (.ok response)).2
      = .failed (.error (utf16 "No valid blog posts found. Please ensure your sheet has title, content, author, and date columns.")) := by
  have hv := validBlogs_filter data hrec
  rw [hnone] at hv
  unfold loadBlogs loadBlogsTry
  simp [hurl, hpath, hok, hj, isArray, arrayItems, hne, hv]

/-! ### Rendering -/

theorem escapeCodeUnit_no_angle (c : Nat) :
    60 ∉ escapeCodeUnit c ∧ 62 ∉ escapeCodeUnit c := by
  unfold escapeCodeUnit
  split
  · decide
  · split
    · decide
    · split
      · decide
      · split
        · decide
        · rename_i h60 h62
          simp only [List.mem_singleton]
          exact ⟨fun hc => h60 hc.symm, fun hc => h62 hc.symm⟩

/-- What `escapeHtml` does achieve: no `<` and no `>` is left in a serialised
text, whatever the text was. -/
theorem serializeText_no_angle (s : JSString) :
    60 ∉ serializeText s ∧ 62 ∉ serializeText s := by
  induction s with
  | nil => exact ⟨List.not_mem_nil _, List.not_mem_nil _⟩
  | cons c s ih =>
    have hc := escapeCodeUnit_no_angle c
    simp only [serializeText, List.foldr_cons, List.mem_append, not_or] at ih ⊢
    exact ⟨⟨hc.1, ih.1⟩, ⟨hc.2, ih.2⟩⟩

/-- What `escapeHtml` does not do: a double quote of the text is still in the
serialised text. -/
theorem serializeText_keeps_quote (s : JSString) (hq : 34 ∈ s) : 34 ∈ serializeText s := by
  induction s with
  | nil => exact absurd hq (List.not_mem_nil _)
  | cons c s ih =>
    simp only [serializeText, List.foldr_cons, List.mem_append]
    rcases List.mem_cons.mp hq with hc | hs
    · left
      subst hc
      decide
    · right
      exact ih hs

set_option maxRecDepth 8000 in
/-- C9, failing input: for a record whose `image` is `x" onerror="alert(1)`,
the card of the grid starts with an `img` tag whose `src` value ends after `x`
and which carries the `onerror` attribute written in the field: the double
quote of the field reaches the markup unescaped. -/
theorem blogCard_quote_unescaped (h : Host) :
    ∃ rest, blogCard h quotedImageRecord
      = .ok (utf16 "\n        <div class=\"blog-card\">\n            <img src=\"x\" onerror=\"alert(1)\" alt=\"T\" class=\"blog-image\""
          ++ rest) :=
  ⟨_, rfl⟩

/-- C10, failing input: for a date string the parser rejects, `formatDate`
returns the text `Invalid Date`; the `catch` branch that would return the
original string is not taken, so the result differs from every such string
other than `Invalid Date` itself. -/
theorem formatDate_unparseable (h : Host) (dateString : JSString)
    (hbad : h.dateParse dateString = none) :
    formatDate h (.str dateString) = .str (utf16 "Invalid Date")
      ∧ (dateString ≠ utf16 "Invalid Date" → formatDate h (.str dateString) ≠ .str dateString) := by
  have hres : formatDate h (.str dateString) = .str (utf16 "Invalid Date") := by
    unfold formatDate newDate
    simp only [hbad]
    rfl
  refine ⟨hres, fun hne heq => hne ?_⟩
  rw [hres] at heq
  exact (JSValue.str.inj heq).symm

/-- Witness for C10: the string `not a date`. -/
theorem formatDate_unparseable_witness :
    formatDate sampleHost (.str (utf16 "not a date")) = .str (utf16 "Invalid Date")
      ∧ formatDate sampleHost (.str (utf16 "not a date")) ≠ .str (utf16 "not a date") :=
  ⟨(formatDate_unparseable sampleHost (utf16 "not a date") (by decide)).1,
   (formatDate_unparseable sampleHost (utf16 "not a date") (by decide)).2 (by decide)⟩

theorem formatDate_parseable (h : Host) (dateString : JSString) (t : Int)
    (hgood : h.dateParse dateString = some t) :
    formatDate h (.str dateString) = .str (h.formatEnUS t) := by
  simp [formatDate, newDate, hgood, toLocaleDateString]

end Popel
